import Mathlib

/-!
Shallow embedding of the flight-attribute derivation core in
src/analysis/flight_attribute.py, together with theorems settling the
specified properties of its decision procedures.

Conventions of the embedding:
* sample indices are natural numbers; numeric KPV values, parameter samples,
  latitudes, longitudes and headings are integers (only zero/non-zero and
  counting matter to the properties below);
* Python truthiness is made explicit: an absent object is none, a present
  KPV element or datetime is always truthy, a numeric value is falsy exactly
  when it is zero, a collection is falsy exactly when it is empty;
* the geospatial service and the index-to-datetime utility are external
  collaborators and are passed in as functions; a lookup returning none
  stands for a LookupNotFound failure raised by the service and caught at
  the call site;
* a derive procedure that can call set_flight_attr several times is modelled
  by the ordered list of values it commits.
-/

/-- A key point value: a value recorded at one sample index.
Modelled from the spec: KPV entries (from the missing node module) carry a
time index and a numeric value; a present entry is always truthy. -/
structure KPVal where
  index : Nat
  value : Int
deriving DecidableEq, Repr

/-- A section / phase: a named interval [start, stop) in sample-index space.
Modelled from the spec: Section entries of the missing node module. -/
structure Sect where
  start : Nat
  stop : Nat
deriving DecidableEq, Repr

/-- Modelled from the spec: the registry query get(within_interval) of the
missing node module returns the matches whose index lies in [start, stop). -/
def kpvGet (ks : List KPVal) (s : Sect) : List KPVal :=
  ks.filter (fun k => decide (s.start ≤ k.index ∧ k.index < s.stop))

/-- Modelled from the spec: the same interval query for key time instances,
which carry an index only. -/
def ktiGet (ks : List Nat) (s : Sect) : List Nat :=
  ks.filter (fun i => decide (s.start ≤ i ∧ i < s.stop))

/-- numpy ptp: peak-to-peak (max minus min) of a sample sequence.
The empty sequence is given ptp 0. -/
def ptp (l : List Int) : Int :=
  match l with
  | [] => 0
  | x :: xs => xs.foldl max x - xs.foldl min x

/-- The Python slice l[a:b] of a sample array. -/
def sliceOf (l : List Int) (s : Sect) : List Int :=
  (l.drop s.start).take (s.stop - s.start)

/-- Python truthiness of an optional numeric value: None and 0 are falsy. -/
def numFalsy : Option Int → Bool
  | none => true
  | some v => v == 0

/-- The three decidable approach types of Approaches._get_approach_type. -/
inductive ApproachType
  | LANDING
  | TOUCH_AND_GO
  | GO_AROUND
deriving DecidableEq, Repr

namespace Approaches

/-- Approaches._get_approach_type: first discriminator with exactly one match
inside the approach slice wins; Heading At Landing before Touch And Go before
Go Around; none when no discriminator matches exactly once.  (In the source
each discriminator is also tested for truthiness first; a collection with
exactly one match in the slice is necessarily non-empty, so the truthiness
test is part of the first conjunct.) -/
def getApproachType (approachSlice : Sect) (landingHdgKpvs : List KPVal)
    (touchAndGos goArounds : List Nat) : Option ApproachType :=
  if landingHdgKpvs ≠ [] ∧ (kpvGet landingHdgKpvs approachSlice).length = 1 then
    some ApproachType.LANDING
  else if touchAndGos ≠ [] ∧ (ktiGet touchAndGos approachSlice).length = 1 then
    some ApproachType.TOUCH_AND_GO
  else if goArounds ≠ [] ∧ (ktiGet goArounds approachSlice).length = 1 then
    some ApproachType.GO_AROUND
  else
    none

/-- One source of Approaches._get_lat_lon: both collections truthy and with
exactly one match each within the slice; returns that pair of values. -/
def kpvPair (approachSlice : Sect) (latKpvs lonKpvs : List KPVal) :
    Option (Int × Int) :=
  if latKpvs ≠ [] ∧ lonKpvs ≠ [] then
    match kpvGet latKpvs approachSlice, kpvGet lonKpvs approachSlice with
    | [la], [lo] => some (la.value, lo.value)
    | _, _ => none
  else none

/-- Approaches._get_lat_lon: the landing pair is preferred; otherwise the
approach pair; otherwise the pair of Nones. -/
def getLatLon (approachSlice : Sect)
    (landingLat landingLon approachLat approachLon : List KPVal) :
    Option Int × Option Int :=
  match kpvPair approachSlice landingLat landingLon with
  | some (la, lo) => (some la, some lo)
  | none =>
    match kpvPair approachSlice approachLat approachLon with
    | some (la, lo) => (some la, some lo)
    | none => (none, none)

/-- One source of Approaches._get_hdg: collection truthy with exactly one
match within the slice. -/
def kpvSingle (approachSlice : Sect) (ks : List KPVal) : Option Int :=
  if ks ≠ [] then
    match kpvGet ks approachSlice with
    | [k] => some k.value
    | _ => none
  else none

/-- Approaches._get_hdg: Heading At Landing preferred over Heading At Low
Point On Approach. -/
def getHdg (approachSlice : Sect) (landingHdgKpvs approachHdgKpvs : List KPVal) :
    Option Int :=
  match kpvSingle approachSlice landingHdgKpvs with
  | some v => some v
  | none => kpvSingle approachSlice approachHdgKpvs

/-- The record appended per decided approach by Approaches.derive.
The airport is modelled by its id and the runway by its identifier. -/
structure ApproachRecord where
  airport : Nat
  runway : Option String
  apType : ApproachType
  datetime : Int
deriving DecidableEq, Repr

/-- The ilsfreq keyword argument assembled by Approaches.derive: present when
the ILS Frequency On Approach collection is truthy and has exactly one match
within the approach slice. -/
def ilsFreqArg (approachIlsfreq : List KPVal) (approachSlice : Sect) : Option Int :=
  if approachIlsfreq ≠ [] then
    match kpvGet approachIlsfreq approachSlice with
    | [k] => some k.value
    | _ => none
  else none

/-- The body of the per-approach loop in Approaches.derive: the record this
iteration appends, or none when the loop continues without appending.
A none from nearestAirport or nearestRunway stands for a LookupNotFound
failure caught at the call site.  The checks on lat, lon and hdg are the
Python truthiness tests of the source, under which the value 0 is falsy. -/
def processApproach
    (nearestAirport : Int → Int → Option Nat)
    (nearestRunway : Nat → Int → Option Int → Option (Int × Int) → Option String)
    (dtOf : Nat → Int)
    (landingHdgKpvs : List KPVal) (touchAndGos goArounds : List Nat)
    (landingLat landingLon approachLat approachLon approachHdg approachIlsfreq : List KPVal)
    (precision : Bool) (approach : Sect) : Option ApproachRecord :=
  let approachDatetime := dtOf approach.stop
  match getApproachType approach landingHdgKpvs touchAndGos goArounds with
  | none => none
  | some approachType =>
    let ll := getLatLon approach landingLat landingLon approachLat approachLon
    if numFalsy ll.1 || numFalsy ll.2 then none
    else
      let lat := ll.1.getD 0
      let lon := ll.2.getD 0
      match nearestAirport lat lon with
      | none => none
      | some airportId =>
        let hdg := getHdg approach landingHdgKpvs approachHdg
        if numFalsy hdg then
          some ⟨airportId, none, approachType, approachDatetime⟩
        else
          let pos := if precision then some (lat, lon) else none
          let runwayIdent :=
            nearestRunway airportId (hdg.getD 0) (ilsFreqArg approachIlsfreq approach) pos
          some ⟨airportId, runwayIdent, approachType, approachDatetime⟩

/-- Approaches.derive: the for-loop over the Approach And Landing sections,
appending one record per approach that survives every check.  The committed
flight attribute is the resulting list. -/
def derive
    (nearestAirport : Int → Int → Option Nat)
    (nearestRunway : Nat → Int → Option Int → Option (Int × Int) → Option String)
    (dtOf : Nat → Int)
    (landingHdgKpvs : List KPVal) (touchAndGos goArounds : List Nat)
    (landingLat landingLon approachLat approachLon approachHdg approachIlsfreq : List KPVal)
    (precision : Bool) : List Sect → List ApproachRecord
  | [] => []
  | approach :: rest =>
    match processApproach nearestAirport nearestRunway dtOf landingHdgKpvs
        touchAndGos goArounds landingLat landingLon approachLat approachLon
        approachHdg approachIlsfreq precision approach with
    | none => derive nearestAirport nearestRunway dtOf landingHdgKpvs
        touchAndGos goArounds landingLat landingLon approachLat approachLon
        approachHdg approachIlsfreq precision rest
    | some r => r :: derive nearestAirport nearestRunway dtOf landingHdgKpvs
        touchAndGos goArounds landingLat landingLon approachLat approachLon
        approachHdg approachIlsfreq precision rest

end Approaches

namespace Duration

/-- Duration.derive.  Datetimes are modelled as integer seconds since an
epoch; a present Python datetime is always truthy, so the truthiness tests on
landing_dt.value and takeoff_dt.value are presence tests, and the
total_seconds of the datetime difference is integer subtraction.  The
returned value is the committed attribute value (none = committed None). -/
def derive (takeoffDt landingDt : Option Int) : Option Int :=
  match landingDt, takeoffDt with
  | some l, some t => some (l - t)
  | _, _ => none

end Duration

namespace FlightType

/-- The record-type override list exactly as the source writes it: the
missing comma between the POSITIONING and TEST string literals makes Python
concatenate the two adjacent literals into the single string
POSITIONINGTEST. -/
def overrides : List String :=
  ["FERRY", "LINE_TRAINING", "POSITIONINGTEST", "TRAINING"]

/-- FlightType.derive.  Liftoffs and touchdowns are KTI index lists queried
with get_first and get_last; Touch And Go items are represented by the index
the source compares (modelled from the spec: the end of each Touch And Go
interval, in chronological order); groundspeed is an optional parameter whose
full array ptp is tested against 10.  All paths commit exactly once, so the
committed attribute value is returned directly. -/
def derive (afrType : Option String) (fast : List Sect)
    (liftoffs touchdowns touchAndGos : List Nat)
    (groundspeed : Option (List Int)) : String :=
  if liftoffs ≠ [] ∧ touchdowns = [] then "LIFTOFF_ONLY"
  else if liftoffs = [] ∧ touchdowns ≠ [] then "TOUCHDOWN_ONLY"
  else if liftoffs ≠ [] ∧ touchdowns ≠ [] then
    if touchdowns.head?.getD 0 < liftoffs.head?.getD 0 then "TOUCHDOWN_BEFORE_LIFTOFF"
    else if touchAndGos ≠ [] ∧ touchdowns.getLast?.getD 0 ≤ touchAndGos.getLast?.getD 0 then
      "LIFTOFF_ONLY"
    else
      match afrType with
      | some t => if overrides.contains t then t else "COMPLETE"
      | none => "COMPLETE"
  else if fast ≠ [] then "REJECTED_TAKEOFF"
  else if (match groundspeed with | some gs => decide (ptp gs > 10) | none => false) then
    "GROUND_RUN"
  else "ENGINE_RUN_UP"

end FlightType

/-- The two seats of the pilot-flying classifiers. -/
inductive Pilot
  | captain
  | firstOfficer
deriving DecidableEq, Repr

/-- The observable outcome of one TakeoffPilot.derive or LandingPilot.derive
invocation: the ordered list of values passed to set_flight_attr, and whether
the autopilot-engagement fallback read its KPV inputs (both autopilot KPV
collections present and the engagement flags fetched). -/
structure PilotDeriveResult where
  commits : List (Option Pilot)
  consultedAP : Bool
deriving DecidableEq, Repr

/-- TakeoffPilot._controls_in_use and LandingPilot._controls_in_use: a seat is
active when the peak-to-peak of its pitch or of its roll over the interval is
non-zero. -/
def controlsInUse (sl : Sect) (pitch roll : List Int) : Bool :=
  decide (ptp (sliceOf pitch sl) ≠ 0) || decide (ptp (sliceOf roll sl) ≠ 0)

namespace TakeoffPilot

/-- The autopilot-engagement fallback block of TakeoffPilot.derive.  As in
the source, BOTH engagement flags are read from the channel-1 collection:
first_autopilot2 = liftoff_autopilot1.get_first().  sofar is the list of
values committed before the block runs.  The branch committing None when a
fetched flag is absent corresponds to the source test on the fetched
elements (a fetch from a non-empty collection always succeeds, so with list
semantics it requires an empty collection, excluded by the guard). -/
def apFallback (liftoffAp1 liftoffAp2 : List KPVal)
    (sofar : List (Option Pilot)) : PilotDeriveResult :=
  if liftoffAp1 ≠ [] ∧ liftoffAp2 ≠ [] then
    match liftoffAp1.head?, liftoffAp1.head? with
    | some f1, some f2 =>
      if f1.value ≠ 0 ∧ f2.value = 0 then ⟨sofar ++ [some Pilot.captain], true⟩
      else if f1.value = 0 ∧ f2.value ≠ 0 then ⟨sofar ++ [some Pilot.firstOfficer], true⟩
      else ⟨sofar, true⟩
    | _, _ => ⟨sofar ++ [none], true⟩
  else ⟨sofar, false⟩

/-- TakeoffPilot.derive.  The control parameters are optional; when all four
are present and the Takeoff section list is truthy, the control-variance
source runs on the first takeoff; a definite single-seat answer returns
immediately, while the ambiguous and the no-activity branches commit None
and fall through to the autopilot fallback.  When the guard fails the
fallback runs with nothing committed.  (The source also tests the fetched
first takeoff for truthiness; with list semantics a truthy section list
always yields one, so that dead branch is not represented.) -/
def derive (liftoffAp1 liftoffAp2 : List KPVal)
    (pitchCaptain rollCaptain pitchFo rollFo : Option (List Int))
    (takeoffs : List Sect) : PilotDeriveResult :=
  match pitchCaptain, rollCaptain, pitchFo, rollFo with
  | some pc, some rc, some pf, some rf =>
    match takeoffs.head? with
    | none => apFallback liftoffAp1 liftoffAp2 []
    | some takeoff =>
      let captainFlying := controlsInUse takeoff pc rc
      let foFlying := controlsInUse takeoff pf rf
      if captainFlying && foFlying then apFallback liftoffAp1 liftoffAp2 [none]
      else if captainFlying then ⟨[some Pilot.captain], false⟩
      else if foFlying then ⟨[some Pilot.firstOfficer], false⟩
      else apFallback liftoffAp1 liftoffAp2 [none]
  | _, _, _, _ => apFallback liftoffAp1 liftoffAp2 []

end TakeoffPilot

namespace LandingPilot

/-- The autopilot-engagement fallback block of LandingPilot.derive.  As in
the source, BOTH engagement flags are read from the channel-1 collection:
last_autopilot2 = touchdown_autopilot1.get_last(). -/
def apFallback (touchdownAp1 touchdownAp2 : List KPVal)
    (sofar : List (Option Pilot)) : PilotDeriveResult :=
  if touchdownAp1 ≠ [] ∧ touchdownAp2 ≠ [] then
    match touchdownAp1.getLast?, touchdownAp1.getLast? with
    | some f1, some f2 =>
      if f1.value ≠ 0 ∧ f2.value = 0 then ⟨sofar ++ [some Pilot.captain], true⟩
      else if f1.value = 0 ∧ f2.value ≠ 0 then ⟨sofar ++ [some Pilot.firstOfficer], true⟩
      else ⟨sofar, true⟩
    | _, _ => ⟨sofar ++ [none], true⟩
  else ⟨sofar, false⟩

/-- LandingPilot.derive: same structure as TakeoffPilot.derive over the first
Landing section (the source uses get_first here too), with the autopilot
fallback reading the last engagement flags. -/
def derive (pitchCaptain rollCaptain pitchFo rollFo : Option (List Int))
    (landings : List Sect) (touchdownAp1 touchdownAp2 : List KPVal) :
    PilotDeriveResult :=
  match pitchCaptain, rollCaptain, pitchFo, rollFo with
  | some pc, some rc, some pf, some rf =>
    match landings.head? with
    | none => apFallback touchdownAp1 touchdownAp2 []
    | some landing =>
      let captainFlying := controlsInUse landing pc rc
      let foFlying := controlsInUse landing pf rf
      if captainFlying && foFlying then apFallback touchdownAp1 touchdownAp2 [none]
      else if captainFlying then ⟨[some Pilot.captain], false⟩
      else if foFlying then ⟨[some Pilot.firstOfficer], false⟩
      else apFallback touchdownAp1 touchdownAp2 [none]
  | _, _, _, _ => apFallback touchdownAp1 touchdownAp2 []

end LandingPilot

namespace LandingAirport

/-- LandingAirport.derive: the last Latitude At Landing and Longitude At
Landing values are looked up with the geospatial service; a missing KPV or a
caught LookupNotFound commits None, success commits the airport (modelled by
its id).  The returned value is the committed attribute value, and every
path commits exactly once. -/
def derive (nearestAirport : Int → Int → Option Nat)
    (landingLatitude landingLongitude : List KPVal) : Option Nat :=
  match landingLatitude.getLast?, landingLongitude.getLast? with
  | some la, some lo =>
    match nearestAirport la.value lo.value with
    | none => none
    | some airport => some airport
  | _, _ => none

end LandingAirport

/-! ## Helper lemmas -/

/-- The autopilot fallback of TakeoffPilot.derive never changes the list of
committed values: both engagement flags are fetched from the channel-1
collection, so the two definite branches require the same value to be both
zero and non-zero, and the absent-flag branch requires a fetch from a
non-empty collection to fail.  It only records whether it was consulted. -/
theorem takeoffApFallback_eq (liftoffAp1 liftoffAp2 : List KPVal)
    (sofar : List (Option Pilot)) :
    TakeoffPilot.apFallback liftoffAp1 liftoffAp2 sofar =
      ⟨sofar, decide (liftoffAp1 ≠ [] ∧ liftoffAp2 ≠ [])⟩ := by
  unfold TakeoffPilot.apFallback
  by_cases h : liftoffAp1 ≠ [] ∧ liftoffAp2 ≠ []
  · rw [if_pos h, decide_eq_true h]
    cases hg : liftoffAp1.head? with
    | none => exact absurd (List.head?_eq_none_iff.mp hg) h.1
    | some f => by_cases hv : f.value = 0 <;> simp [hv]
  · rw [if_neg h, decide_eq_false h]

/-- Same fact for the autopilot fallback of LandingPilot.derive. -/
theorem landingApFallback_eq (touchdownAp1 touchdownAp2 : List KPVal)
    (sofar : List (Option Pilot)) :
    LandingPilot.apFallback touchdownAp1 touchdownAp2 sofar =
      ⟨sofar, decide (touchdownAp1 ≠ [] ∧ touchdownAp2 ≠ [])⟩ := by
  unfold LandingPilot.apFallback
  by_cases h : touchdownAp1 ≠ [] ∧ touchdownAp2 ≠ []
  · rw [if_pos h, decide_eq_true h]
    cases hg : touchdownAp1.getLast? with
    | none => exact absurd (List.getLast?_eq_none_iff.mp hg) h.1
    | some f => by_cases hv : f.value = 0 <;> simp [hv]
  · rw [if_neg h, decide_eq_false h]

/-! ## Claims -/

/-- Claim C5: per invocation, TakeoffPilot.derive and LandingPilot.derive
call set_flight_attr at most once, on every execution path and for every
input binding; each committed value is a whole value (a seat or None). -/
theorem pilot_derive_commits_at_most_once
    (liftoffAp1 liftoffAp2 touchdownAp1 touchdownAp2 : List KPVal)
    (pc rc pf rf lpc lrc lpf lrf : Option (List Int))
    (takeoffs landings : List Sect) :
    (TakeoffPilot.derive liftoffAp1 liftoffAp2 pc rc pf rf takeoffs).commits.length ≤ 1 ∧
    (LandingPilot.derive lpc lrc lpf lrf landings touchdownAp1 touchdownAp2).commits.length ≤ 1 := by
  constructor
  · unfold TakeoffPilot.derive
    repeat' split
    all_goals simp [takeoffApFallback_eq]
    all_goals split_ifs <;> simp
  · unfold LandingPilot.derive
    repeat' split
    all_goals simp [landingApFallback_eq]
    all_goals split_ifs <;> simp

/-- Claim C1 counterexample: a concrete takeoff in which both the captain
and the first officer control inputs have non-zero peak-to-peak variance
within the takeoff interval, and yet the autopilot-channel evidence is
consulted (both engagement collections are read), refuting that source (2)
is consulted only when both variances are zero. -/
theorem takeoff_autopilot_consulted_despite_both_active :
    controlsInUse ⟨0, 2⟩ [0, 1] [0, 0] = true ∧
    controlsInUse ⟨0, 2⟩ [0, 2] [0, 0] = true ∧
    (TakeoffPilot.derive [⟨0, 1⟩] [⟨0, 1⟩] (some [0, 1]) (some [0, 0])
      (some [0, 2]) (some [0, 0]) [⟨0, 2⟩]).consultedAP = true := by decide

/-- Claim C1 (amended): when both seats show non-zero control variance in
the takeoff or landing interval, the classification commits exactly one
None, and that result does not depend on the autopilot inputs (it is never
overridden by the autopilot source); however the autopilot-channel evidence
is consulted whenever the control-variance source does not return a definite
single-seat answer - in particular also in the ambiguous both-active case -
provided both autopilot collections are present.  A definite answer from the
control-variance source is committed and returned immediately, without
consulting the autopilot source. -/
theorem pilot_flying_ambiguity_final_and_fallback_scope
    (liftoffAp1 liftoffAp2 touchdownAp1 touchdownAp2 : List KPVal)
    (pc rc pf rf lpc lrc lpf lrf : List Int)
    (tk ld : Sect) (tks lds : List Sect) :
    (controlsInUse tk pc rc = true → controlsInUse tk pf rf = true →
      TakeoffPilot.derive liftoffAp1 liftoffAp2 (some pc) (some rc) (some pf)
        (some rf) (tk :: tks) =
        ⟨[none], decide (liftoffAp1 ≠ [] ∧ liftoffAp2 ≠ [])⟩) ∧
    (controlsInUse tk pc rc = true → controlsInUse tk pf rf = false →
      TakeoffPilot.derive liftoffAp1 liftoffAp2 (some pc) (some rc) (some pf)
        (some rf) (tk :: tks) = ⟨[some Pilot.captain], false⟩) ∧
    (controlsInUse tk pc rc = false → controlsInUse tk pf rf = true →
      TakeoffPilot.derive liftoffAp1 liftoffAp2 (some pc) (some rc) (some pf)
        (some rf) (tk :: tks) = ⟨[some Pilot.firstOfficer], false⟩) ∧
    (controlsInUse ld lpc lrc = true → controlsInUse ld lpf lrf = true →
      LandingPilot.derive (some lpc) (some lrc) (some lpf) (some lrf)
        (ld :: lds) touchdownAp1 touchdownAp2 =
        ⟨[none], decide (touchdownAp1 ≠ [] ∧ touchdownAp2 ≠ [])⟩) := by
  refine ⟨?_, ?_, ?_, ?_⟩
  · intro h1 h2
    simp [TakeoffPilot.derive, h1, h2, takeoffApFallback_eq]
  · intro h1 h2
    simp [TakeoffPilot.derive, h1, h2]
  · intro h1 h2
    simp [TakeoffPilot.derive, h1, h2]
  · intro h1 h2
    simp [LandingPilot.derive, h1, h2, landingApFallback_eq]

/-- Witness for the amended claim C1 at concrete inputs: an ambiguous
takeoff commits exactly one None with the autopilot source consulted, and a
captain-only takeoff returns Captain without consulting it. -/
theorem pilot_flying_ambiguity_final_and_fallback_scope_witness :
    TakeoffPilot.derive [⟨0, 1⟩] [⟨0, 1⟩] (some [0, 1]) (some [0, 0])
      (some [0, 2]) (some [0, 0]) [⟨0, 2⟩] = ⟨[none], true⟩ ∧
    TakeoffPilot.derive [] [] (some [0, 1]) (some [0, 0]) (some [0, 0])
      (some [0, 0]) [⟨0, 2⟩] = ⟨[some Pilot.captain], false⟩ := by
  constructor
  · rw [(pilot_flying_ambiguity_final_and_fallback_scope [⟨0, 1⟩] [⟨0, 1⟩] [] []
      [0, 1] [0, 0] [0, 2] [0, 0] [] [] [] [] ⟨0, 2⟩ ⟨0, 0⟩ [] []).1
      (by decide) (by decide)]
    decide
  · exact (pilot_flying_ambiguity_final_and_fallback_scope [] [] [] []
      [0, 1] [0, 0] [0, 0] [0, 0] [] [] [] [] ⟨0, 2⟩ ⟨0, 0⟩ [] []).2.1
      (by decide) (by decide)

/-- Claim C3: the source fetches BOTH engagement flags from the channel-1
collection (first_autopilot2 = liftoff_autopilot1.get_first() at takeoff,
last_autopilot2 = touchdown_autopilot1.get_last() at landing), so at an
input where only channel 2 is engaged the classifier commits nothing instead
of First Officer - and where only channel 1 is engaged it commits nothing
instead of Captain. -/
theorem autopilot_channel_engagement_commits_nothing :
    (TakeoffPilot.derive [⟨10, 0⟩] [⟨10, 1⟩] none none none none []).commits = [] ∧
    (TakeoffPilot.derive [⟨10, 0⟩] [⟨10, 1⟩] none none none none []).consultedAP = true ∧
    (TakeoffPilot.derive [⟨10, 1⟩] [⟨10, 0⟩] none none none none []).commits = [] ∧
    (LandingPilot.derive none none none none [] [⟨10, 0⟩] [⟨10, 1⟩]).commits = [] ∧
    (LandingPilot.derive none none none none [] [⟨10, 1⟩] [⟨10, 0⟩]).commits = [] := by
  decide

/-- Claim C2: because of the missing comma in the override list (the
POSITIONING and TEST literals concatenate to POSITIONINGTEST), a
manually-entered record type of POSITIONING or of TEST is NOT honoured as an
override and the flight type falls back to COMPLETE, while FERRY and
TRAINING are honoured. -/
theorem flight_type_positioning_and_test_not_overridden :
    FlightType.derive (some "POSITIONING") [] [100] [200] [] none = "COMPLETE" ∧
    FlightType.derive (some "TEST") [] [100] [200] [] none = "COMPLETE" ∧
    FlightType.derive (some "FERRY") [] [100] [200] [] none = "FERRY" ∧
    FlightType.derive (some "TRAINING") [] [100] [200] [] none = "TRAINING" ∧
    FlightType.overrides.contains "POSITIONINGTEST" = true ∧
    FlightType.overrides.contains "POSITIONING" = false ∧
    FlightType.overrides.contains "TEST" = false := by
  refine ⟨rfl, rfl, rfl, rfl, rfl, rfl, rfl⟩

/-- Claim C4: the approach-type classifier returns at most one type, decided
in priority order with first exactly-one-match winning: exactly one landing
heading KPV in the interval gives LANDING; otherwise exactly one Touch And
Go gives TOUCH_AND_GO; otherwise exactly one Go Around gives GO_AROUND;
LANDING is preferred when all discriminators match; when none matches
exactly once the classifier returns none and the approach is excluded from
the derived list. -/
theorem approach_type_priority_and_exclusion
    (sl : Sect) (landingHdgKpvs : List KPVal) (touchAndGos goArounds : List Nat)
    (na : Int → Int → Option Nat)
    (nrw : Nat → Int → Option Int → Option (Int × Int) → Option String)
    (dtOf : Nat → Int)
    (landingLat landingLon approachLat approachLon approachHdg approachIlsfreq : List KPVal)
    (precision : Bool) (rest : List Sect) :
    ((kpvGet landingHdgKpvs sl).length = 1 →
      Approaches.getApproachType sl landingHdgKpvs touchAndGos goArounds =
        some ApproachType.LANDING) ∧
    ((kpvGet landingHdgKpvs sl).length ≠ 1 → (ktiGet touchAndGos sl).length = 1 →
      Approaches.getApproachType sl landingHdgKpvs touchAndGos goArounds =
        some ApproachType.TOUCH_AND_GO) ∧
    ((kpvGet landingHdgKpvs sl).length ≠ 1 → (ktiGet touchAndGos sl).length ≠ 1 →
      (ktiGet goArounds sl).length = 1 →
      Approaches.getApproachType sl landingHdgKpvs touchAndGos goArounds =
        some ApproachType.GO_AROUND) ∧
    ((kpvGet landingHdgKpvs sl).length ≠ 1 → (ktiGet touchAndGos sl).length ≠ 1 →
      (ktiGet goArounds sl).length ≠ 1 →
      Approaches.getApproachType sl landingHdgKpvs touchAndGos goArounds = none) ∧
    (Approaches.getApproachType sl landingHdgKpvs touchAndGos goArounds = none →
      Approaches.derive na nrw dtOf landingHdgKpvs touchAndGos goArounds landingLat
        landingLon approachLat approachLon approachHdg approachIlsfreq precision
        (sl :: rest) =
      Approaches.derive na nrw dtOf landingHdgKpvs touchAndGos goArounds landingLat
        landingLon approachLat approachLon approachHdg approachIlsfreq precision
        rest) := by
  refine ⟨?_, ?_, ?_, ?_, ?_⟩
  · intro h
    have hne : landingHdgKpvs ≠ [] := by
      intro he; rw [he] at h; simp [kpvGet] at h
    unfold Approaches.getApproachType
    rw [if_pos ⟨hne, h⟩]
  · intro h1 h2
    have hne : touchAndGos ≠ [] := by
      intro he; rw [he] at h2; simp [ktiGet] at h2
    unfold Approaches.getApproachType
    rw [if_neg (fun hc => h1 hc.2), if_pos ⟨hne, h2⟩]
  · intro h1 h2 h3
    have hne : goArounds ≠ [] := by
      intro he; rw [he] at h3; simp [ktiGet] at h3
    unfold Approaches.getApproachType
    rw [if_neg (fun hc => h1 hc.2), if_neg (fun hc => h2 hc.2), if_pos ⟨hne, h3⟩]
  · intro h1 h2 h3
    unfold Approaches.getApproachType
    rw [if_neg (fun hc => h1 hc.2), if_neg (fun hc => h2 hc.2),
      if_neg (fun hc => h3 hc.2)]
  · intro h
    have hp : Approaches.processApproach na nrw dtOf landingHdgKpvs touchAndGos
        goArounds landingLat landingLon approachLat approachLon approachHdg
        approachIlsfreq precision sl = none := by
      unfold Approaches.processApproach
      rw [h]
    simp [Approaches.derive, hp]

/-- Witness for claim C4: all three discriminators have exactly one match in
the interval and LANDING wins. -/
theorem approach_type_priority_witness :
    (kpvGet [⟨5, 100⟩] ⟨0, 10⟩).length = 1 ∧
    (ktiGet [6] ⟨0, 10⟩).length = 1 ∧
    (ktiGet [7] ⟨0, 10⟩).length = 1 ∧
    Approaches.getApproachType ⟨0, 10⟩ [⟨5, 100⟩] [6] [7] = some ApproachType.LANDING := by
  refine ⟨by decide, by decide, by decide, ?_⟩
  exact (approach_type_priority_and_exclusion ⟨0, 10⟩ [⟨5, 100⟩] [6] [7]
    (fun _ _ => none) (fun _ _ _ _ => none) (fun i => (i : Int))
    [] [] [] [] [] [] false []).1 (by decide)

/-- Claim C6: the Duration attribute equals the landing datetime minus the
takeoff datetime in seconds whenever both input attributes have a value, is
committed as None whenever either is absent, and deriving twice from
identical inputs yields the identical output. -/
theorem duration_formula_and_idempotence (takeoffDt landingDt : Option Int) :
    (∀ t l : Int, takeoffDt = some t → landingDt = some l →
      Duration.derive takeoffDt landingDt = some (l - t)) ∧
    (takeoffDt = none ∨ landingDt = none →
      Duration.derive takeoffDt landingDt = none) ∧
    Duration.derive takeoffDt landingDt = Duration.derive takeoffDt landingDt := by
  refine ⟨?_, ?_, rfl⟩
  · intro t l ht hl
    rw [ht, hl]
    rfl
  · intro h
    rcases h with h | h
    · rw [h]; cases landingDt <;> rfl
    · rw [h]; cases takeoffDt <;> rfl

/-- Witness for claim C6 at concrete datetimes. -/
theorem duration_formula_witness :
    Duration.derive (some 100) (some 250) = some 150 ∧
    Duration.derive none (some 250) = none ∧
    Duration.derive (some 100) none = none := by
  refine ⟨?_, ?_, ?_⟩
  · rw [(duration_formula_and_idempotence (some 100) (some 250)).1 100 250 rfl rfl]
    decide
  · exact (duration_formula_and_idempotence none (some 250)).2.1 (Or.inl rfl)
  · exact (duration_formula_and_idempotence (some 100) none).2.1 (Or.inr rfl)

/-- Claim C7: a LookupNotFound from the geospatial service is absorbed at
the call site.  (a) A failed nearest-airport lookup for one approach makes
the loop skip exactly that approach: the derived list for that approach
followed by any remaining approaches equals the list for the remaining
approaches alone.  (b) A failed nearest-runway lookup leaves only the runway
sub-fact absent: the approach record is still emitted, with runway none.
(c) A failed nearest-airport lookup in LandingAirport.derive commits None.
All derive procedures are total functions of their inputs and the lookup
oracles, so no failure propagates out of them. -/
theorem lookup_not_found_isolated
    (na : Int → Int → Option Nat)
    (nrw : Nat → Int → Option Int → Option (Int × Int) → Option String)
    (dtOf : Nat → Int)
    (landingHdgKpvs : List KPVal) (touchAndGos goArounds : List Nat)
    (landingLat landingLon approachLat approachLon approachHdg approachIlsfreq : List KPVal)
    (precision : Bool) (ap : Sect) (rest : List Sect) (la lo : Int) :
    (Approaches.getLatLon ap landingLat landingLon approachLat approachLon =
        (some la, some lo) → la ≠ 0 → lo ≠ 0 → na la lo = none →
      Approaches.processApproach na nrw dtOf landingHdgKpvs touchAndGos goArounds
        landingLat landingLon approachLat approachLon approachHdg approachIlsfreq
        precision ap = none ∧
      Approaches.derive na nrw dtOf landingHdgKpvs touchAndGos goArounds landingLat
        landingLon approachLat approachLon approachHdg approachIlsfreq precision
        (ap :: rest) =
      Approaches.derive na nrw dtOf landingHdgKpvs touchAndGos goArounds landingLat
        landingLon approachLat approachLon approachHdg approachIlsfreq precision
        rest) ∧
    (∀ (t : ApproachType) (aid : Nat) (h : Int),
      Approaches.getApproachType ap landingHdgKpvs touchAndGos goArounds = some t →
      Approaches.getLatLon ap landingLat landingLon approachLat approachLon =
        (some la, some lo) → la ≠ 0 → lo ≠ 0 →
      na la lo = some aid →
      Approaches.getHdg ap landingHdgKpvs approachHdg = some h → h ≠ 0 →
      nrw aid h (Approaches.ilsFreqArg approachIlsfreq ap)
        (if precision then some (la, lo) else none) = none →
      Approaches.processApproach na nrw dtOf landingHdgKpvs touchAndGos goArounds
        landingLat landingLon approachLat approachLon approachHdg approachIlsfreq
        precision ap = some ⟨aid, none, t, dtOf ap.stop⟩) ∧
    (∀ lla llo : KPVal, landingLat.getLast? = some lla →
      landingLon.getLast? = some llo → na lla.value llo.value = none →
      LandingAirport.derive na landingLat landingLon = none) := by
  refine ⟨?_, ?_, ?_⟩
  · intro hll hla hlo hna
    have hp : Approaches.processApproach na nrw dtOf landingHdgKpvs touchAndGos
        goArounds landingLat landingLon approachLat approachLon approachHdg
        approachIlsfreq precision ap = none := by
      cases hty : Approaches.getApproachType ap landingHdgKpvs touchAndGos goArounds with
      | none => simp [Approaches.processApproach, hty]
      | some t => simp [Approaches.processApproach, hty, hll, numFalsy, hla, hlo, hna]
    exact ⟨hp, by simp [Approaches.derive, hp]⟩
  · intro t aid h hty hll hla hlo hna hhdg hne hrw
    simp [Approaches.processApproach, hty, hll, numFalsy, hla, hlo, hna, hhdg, hne, hrw]
  · intro lla llo hlat hlon hna
    unfold LandingAirport.derive
    rw [hlat, hlon]
    simp [hna]

/-- Witness for claim C7: with a service that never finds an airport the
single approach is dropped and the landing airport is committed None; with a
service that finds airport 99 but never a runway, the approach record is
emitted with runway none. -/
theorem lookup_not_found_isolated_witness :
    Approaches.derive (fun _ _ => none) (fun _ _ _ _ => none) (fun i => (i : Int))
      [⟨2, 7⟩] [] [] [⟨1, 3⟩] [⟨1, 4⟩] [] [] [] [] false [⟨0, 10⟩] = [] ∧
    Approaches.processApproach (fun _ _ => some 99) (fun _ _ _ _ => none)
      (fun i => (i : Int)) [⟨2, 7⟩] [] [] [⟨1, 3⟩] [⟨1, 4⟩] [] [] [] [] false
      ⟨0, 10⟩ = some ⟨99, none, ApproachType.LANDING, 10⟩ ∧
    LandingAirport.derive (fun _ _ => none) [⟨1, 3⟩] [⟨1, 4⟩] = none := by
  refine ⟨?_, ?_, ?_⟩
  · have hd := (lookup_not_found_isolated (fun _ _ => none) (fun _ _ _ _ => none)
      (fun i => (i : Int)) [⟨2, 7⟩] [] [] [⟨1, 3⟩] [⟨1, 4⟩] [] [] [] [] false
      ⟨0, 10⟩ [] 3 4).1 (by decide) (by decide) (by decide) rfl
    rw [hd.2]
    rfl
  · exact (lookup_not_found_isolated (fun _ _ => some 99) (fun _ _ _ _ => none)
      (fun i => (i : Int)) [⟨2, 7⟩] [] [] [⟨1, 3⟩] [⟨1, 4⟩] [] [] [] [] false
      ⟨0, 10⟩ [] 3 4).2.1 ApproachType.LANDING 99 7 (by decide) (by decide)
      (by decide) (by decide) rfl (by decide) (by decide) rfl
  · exact (lookup_not_found_isolated (fun _ _ => none) (fun _ _ _ _ => none)
      (fun i => (i : Int)) [] [] [] [⟨1, 3⟩] [⟨1, 4⟩] [] [] [] [] false ⟨0, 10⟩
      [] 3 4).2.2 ⟨1, 3⟩ ⟨1, 4⟩ rfl rfl rfl

/-- Claim C8: position resolution prefers the landing-interval source: it
returns the landing pair whenever the landing query restricted to the
interval yields exactly one match for both coordinates, only otherwise the
approach pair under the same exactly-one condition, and the absent pair when
neither source qualifies. -/
theorem lat_lon_landing_preference
    (sl : Sect) (landingLat landingLon approachLat approachLon : List KPVal) :
    (∀ a b : KPVal, kpvGet landingLat sl = [a] → kpvGet landingLon sl = [b] →
      Approaches.getLatLon sl landingLat landingLon approachLat approachLon =
        (some a.value, some b.value)) ∧
    (Approaches.kpvPair sl landingLat landingLon = none →
      ∀ a b : KPVal, kpvGet approachLat sl = [a] → kpvGet approachLon sl = [b] →
      Approaches.getLatLon sl landingLat landingLon approachLat approachLon =
        (some a.value, some b.value)) ∧
    (Approaches.kpvPair sl landingLat landingLon = none →
      Approaches.kpvPair sl approachLat approachLon = none →
      Approaches.getLatLon sl landingLat landingLon approachLat approachLon =
        (none, none)) := by
  refine ⟨?_, ?_, ?_⟩
  · intro a b ha hb
    have h1 : landingLat ≠ [] := by
      intro he; rw [he] at ha; simp [kpvGet] at ha
    have h2 : landingLon ≠ [] := by
      intro he; rw [he] at hb; simp [kpvGet] at hb
    have hp : Approaches.kpvPair sl landingLat landingLon = some (a.value, b.value) := by
      unfold Approaches.kpvPair
      rw [if_pos ⟨h1, h2⟩, ha, hb]
    unfold Approaches.getLatLon
    rw [hp]
  · intro hnone a b ha hb
    have h1 : approachLat ≠ [] := by
      intro he; rw [he] at ha; simp [kpvGet] at ha
    have h2 : approachLon ≠ [] := by
      intro he; rw [he] at hb; simp [kpvGet] at hb
    have hp : Approaches.kpvPair sl approachLat approachLon = some (a.value, b.value) := by
      unfold Approaches.kpvPair
      rw [if_pos ⟨h1, h2⟩, ha, hb]
    unfold Approaches.getLatLon
    rw [hnone, hp]
  · intro hn1 hn2
    unfold Approaches.getLatLon
    rw [hn1, hn2]

/-- Witness for claim C8: the landing pair wins when it qualifies, the
approach pair is used when the landing source is empty, and the pair of
Nones results when both sources are empty. -/
theorem lat_lon_landing_preference_witness :
    Approaches.getLatLon ⟨0, 10⟩ [⟨1, 11⟩] [⟨2, 22⟩] [⟨3, 33⟩] [⟨4, 44⟩] =
      (some 11, some 22) ∧
    Approaches.getLatLon ⟨0, 10⟩ [] [] [⟨3, 33⟩] [⟨4, 44⟩] = (some 33, some 44) ∧
    Approaches.getLatLon ⟨0, 10⟩ [] [] [] [] = (none, none) := by
  refine ⟨?_, ?_, ?_⟩
  · exact (lat_lon_landing_preference ⟨0, 10⟩ [⟨1, 11⟩] [⟨2, 22⟩] [⟨3, 33⟩]
      [⟨4, 44⟩]).1 ⟨1, 11⟩ ⟨2, 22⟩ (by decide) (by decide)
  · exact (lat_lon_landing_preference ⟨0, 10⟩ [] [] [⟨3, 33⟩] [⟨4, 44⟩]).2.1
      rfl ⟨3, 33⟩ ⟨4, 44⟩ (by decide) (by decide)
  · exact (lat_lon_landing_preference ⟨0, 10⟩ [] [] [] []).2.2 rfl rfl

/-- In a chronologically ordered index list, every member is at most the
last element (used to relate an existing trailing Touch And Go to the
get_last query of the source). -/
theorem le_getLastD_of_mem_of_sorted (l : List Nat) :
    List.Pairwise (fun a b => a ≤ b) l → ∀ t ∈ l, t ≤ l.getLast?.getD 0 := by
  induction l with
  | nil => intro _ t ht; simp at ht
  | cons x xs ih =>
    intro hp t ht
    rcases List.pairwise_cons.mp hp with ⟨hx, hxs⟩
    rcases List.mem_cons.mp ht with rfl | hmem
    · cases xs with
      | nil => simp
      | cons y ys =>
        rw [List.getLast?_cons_cons]
        have hlast : (y :: ys).getLast?.getD 0 ∈ y :: ys := by
          rw [List.getLast?_eq_getLast (y :: ys) (by simp), Option.getD_some]
          exact List.getLast_mem (by simp)
        exact hx _ hlast
    · cases xs with
      | nil => simp at hmem
      | cons y ys =>
        rw [List.getLast?_cons_cons]
        exact ih hxs t hmem

/-- Claim C9: for a flight with liftoffs and touchdowns whose first
touchdown does not precede the first liftoff, a Touch And Go interval whose
end is at or after the last touchdown makes the flight type LIFTOFF_ONLY
(the Touch And Go list is in chronological order of its compared indices,
so the existing trailing interval is reflected by the get_last query). -/
theorem trailing_touch_and_go_yields_liftoff_only
    (afrType : Option String) (fast : List Sect)
    (liftoffs touchdowns touchAndGos : List Nat) (groundspeed : Option (List Int))
    (hl : liftoffs ≠ []) (htd : touchdowns ≠ [])
    (horder : ¬ touchdowns.head?.getD 0 < liftoffs.head?.getD 0)
    (hsorted : List.Pairwise (fun a b => a ≤ b) touchAndGos)
    (hex : ∃ t ∈ touchAndGos, touchdowns.getLast?.getD 0 ≤ t) :
    FlightType.derive afrType fast liftoffs touchdowns touchAndGos groundspeed =
      "LIFTOFF_ONLY" := by
  obtain ⟨t, htmem, hle⟩ := hex
  have htg : touchAndGos ≠ [] := by
    intro h; rw [h] at htmem; simp at htmem
  have hlast : touchdowns.getLast?.getD 0 ≤ touchAndGos.getLast?.getD 0 :=
    le_trans hle (le_getLastD_of_mem_of_sorted touchAndGos hsorted t htmem)
  unfold FlightType.derive
  rw [if_neg (fun hc => htd hc.2), if_neg (fun hc => hl hc.1),
    if_pos ⟨hl, htd⟩, if_neg horder, if_pos ⟨htg, hlast⟩]

/-- Witness for claim C9 at the concrete inputs of the claim: touchdown
indices [500] and a Touch And Go interval ending at 600 classify as
LIFTOFF_ONLY and never as COMPLETE. -/
theorem trailing_touch_and_go_yields_liftoff_only_witness :
    FlightType.derive none [] [100] [500] [600] none = "LIFTOFF_ONLY" ∧
    FlightType.derive none [] [100] [500] [600] none ≠ "COMPLETE" := by
  have h := trailing_touch_and_go_yields_liftoff_only none [] [100] [500] [600] none
    (by decide) (by decide) (by decide) (by simp) ⟨600, by simp, by decide⟩
  exact ⟨h, by rw [h]; decide⟩

/-- Claim C10: in the Approaches rule a resolved value of exactly 0 is
conflated with absence: a uniquely matched latitude or longitude of value 0
makes the approach be omitted from the output, and a uniquely matched
heading of value 0 makes the approach record be emitted with runway none
without attempting a runway lookup (the result is the same for every runway
oracle). -/
theorem zero_value_conflated_with_absence
    (na : Int → Int → Option Nat)
    (nrw nrw2 : Nat → Int → Option Int → Option (Int × Int) → Option String)
    (dtOf : Nat → Int)
    (landingHdgKpvs : List KPVal) (touchAndGos goArounds : List Nat)
    (landingLat landingLon approachLat approachLon approachHdg approachIlsfreq : List KPVal)
    (precision : Bool) (ap : Sect) (la lo : Int) :
    (Approaches.getLatLon ap landingLat landingLon approachLat approachLon =
        (some la, some lo) → la = 0 ∨ lo = 0 →
      Approaches.processApproach na nrw dtOf landingHdgKpvs touchAndGos goArounds
        landingLat landingLon approachLat approachLon approachHdg approachIlsfreq
        precision ap = none) ∧
    (∀ (t : ApproachType) (aid : Nat),
      Approaches.getApproachType ap landingHdgKpvs touchAndGos goArounds = some t →
      Approaches.getLatLon ap landingLat landingLon approachLat approachLon =
        (some la, some lo) → la ≠ 0 → lo ≠ 0 →
      na la lo = some aid →
      Approaches.getHdg ap landingHdgKpvs approachHdg = some 0 →
      Approaches.processApproach na nrw dtOf landingHdgKpvs touchAndGos goArounds
        landingLat landingLon approachLat approachLon approachHdg approachIlsfreq
        precision ap = some ⟨aid, none, t, dtOf ap.stop⟩ ∧
      Approaches.processApproach na nrw dtOf landingHdgKpvs touchAndGos goArounds
        landingLat landingLon approachLat approachLon approachHdg approachIlsfreq
        precision ap =
      Approaches.processApproach na nrw2 dtOf landingHdgKpvs touchAndGos goArounds
        landingLat landingLon approachLat approachLon approachHdg approachIlsfreq
        precision ap) := by
  constructor
  · intro hll hz
    cases hty : Approaches.getApproachType ap landingHdgKpvs touchAndGos goArounds with
    | none => simp [Approaches.processApproach, hty]
    | some t =>
      rcases hz with rfl | rfl
      · simp [Approaches.processApproach, hty, hll, numFalsy]
      · simp [Approaches.processApproach, hty, hll, numFalsy]
  · intro t aid hty hll hla hlo hna hhdg
    constructor
    · simp [Approaches.processApproach, hty, hll, numFalsy, hla, hlo, hna, hhdg]
    · simp [Approaches.processApproach, hty, hll, numFalsy, hla, hlo, hna, hhdg]

/-- Witness for claim C10: an approach whose unique latitude KPV is 0 is
dropped, and one whose unique heading KPV is 0 yields a record with runway
none even though the oracle would have found runway 09L. -/
theorem zero_value_conflated_with_absence_witness :
    Approaches.processApproach (fun _ _ => some 99) (fun _ _ _ _ => some "09L")
      (fun i => (i : Int)) [⟨2, 7⟩] [] [] [⟨1, 0⟩] [⟨1, 5⟩] [] [] [] [] false
      ⟨0, 10⟩ = none ∧
    Approaches.processApproach (fun _ _ => some 99) (fun _ _ _ _ => some "09L")
      (fun i => (i : Int)) [⟨2, 0⟩] [] [] [⟨1, 3⟩] [⟨1, 4⟩] [] [] [] [] false
      ⟨0, 10⟩ = some ⟨99, none, ApproachType.LANDING, 10⟩ := by
  constructor
  · exact (zero_value_conflated_with_absence (fun _ _ => some 99)
      (fun _ _ _ _ => some "09L") (fun _ _ _ _ => some "09L") (fun i => (i : Int))
      [⟨2, 7⟩] [] [] [⟨1, 0⟩] [⟨1, 5⟩] [] [] [] [] false ⟨0, 10⟩ 0 5).1
      (by decide) (Or.inl rfl)
  · exact ((zero_value_conflated_with_absence (fun _ _ => some 99)
      (fun _ _ _ _ => some "09L") (fun _ _ _ _ => none) (fun i => (i : Int))
      [⟨2, 0⟩] [] [] [⟨1, 3⟩] [⟨1, 4⟩] [] [] [] [] false ⟨0, 10⟩ 3 4).2
      ApproachType.LANDING 99 (by decide) (by decide) (by decide) (by decide)
      rfl (by decide)).1
